import Mathlib

/-!
Verification development for the compound-browser frontend
(`src/frontend/src/api.ts`, `src/frontend/src/App.tsx`, and the
view-state hook `useCompounds` that `App.tsx` imports).

The fetch client and the application shell are embedded directly from
the TypeScript source.  The view-state hook `hooks/useCompounds` is not
present in the repository snapshot (only its caller `App.tsx` is), so
its operations are modelled from the specification's description of the
view-state coordinator (spec section 4.2); each such definition is
marked `Modelled from the spec:`.

JavaScript objects used as query-parameter maps are embedded as ordered
key/value lists in which a later occurrence of a key shadows an earlier
one, which is exactly object-spread semantics.
-/

/-- A JSON-ish scalar value appearing in query parameters
(`page: 1`, a filter string, ...). -/
inductive Value where
  | num : Int → Value
  | str : String → Value
deriving DecidableEq, Repr

/-- A JavaScript object literal used as a parameter map: an ordered list
of key/value pairs.  Later pairs shadow earlier ones on lookup. -/
abbrev Obj : Type := List (String × Value)

/-- Lookup in an object: the value of the LAST pair carrying the key,
as in a JavaScript object built left to right. -/
def Obj.get (k : String) : Obj → Option Value
  | [] => none
  | (k', v) :: rest =>
    match Obj.get k rest with
    | some v' => some v'
    | none => if k' = k then some v else none

/-- Object spread `{...base, ...ext}`: keys of `ext` win over `base`. -/
def spread (base ext : Obj) : Obj := List.append base ext

/-- The fixed base URL constant of `src/frontend/src/api.ts`
(the unnamed duplicate of the file differs only in this string). -/
def API_BASE_URL : String := "http://ms3fa.helmholtz-hzi.de:80/api"

/-- An HTTP request as issued by the axios call in `fetchCompounds`. -/
structure Request where
  method : String
  url : String
  params : Obj
deriving DecidableEq

/-- The two ways the axios GET can fail: a transport (network) error or
a non-2xx status response. -/
inductive HttpError where
  | network : String → HttpError
  | status : Nat → HttpError
deriving DecidableEq, Repr

/-- A compound record: a unique identifier `mol_idx` plus opaque
attribute fields. -/
structure Compound where
  mol_idx : Int
  attrs : List (String × Value) := []
deriving DecidableEq, Repr

/-- The page envelope returned by the backend. -/
structure ApiResponse where
  items : List Compound
  page : Nat
  total_pages : Nat
  total_items : Nat
deriving DecidableEq, Repr

/-- The default pagination parameters hardcoded in `fetchCompounds`:
`{ page: 1, per_page: 50 }`. -/
def defaultParams : Obj := [("page", Value.num 1), ("per_page", Value.num 50)]

/-- The single request `fetchCompounds` builds for a given caller
parameter object: GET on `API_BASE_URL + "/items"` with query
parameters `{ page: 1, per_page: 50, ...params }`. -/
def mkFetchRequest (params : Obj) : Request :=
  { method := "GET"
    url := API_BASE_URL ++ "/items"
    params := spread defaultParams params }

/-- Observable outcome of one call to `fetchCompounds`: the requests it
issued, the errors it logged via `console.error`, and its result
(returned response or re-raised error). -/
structure FetchOutcome where
  requests : List Request
  log : List HttpError
  result : Except HttpError ApiResponse

/-- Embedding of `fetchCompounds` from `src/frontend/src/api.ts`.  The
network is a parameter `http` mapping the issued request to either a
parsed `ApiResponse` or an `HttpError` (axios throws on both transport
failure and non-2xx status).  On success the response data is returned;
on failure the error is logged and re-thrown unchanged.  The default
argument mirrors `params: FilterParams = {}`. -/
def fetchCompounds (http : Request → Except HttpError ApiResponse)
    (params : Obj := []) : FetchOutcome :=
  let req := mkFetchRequest params
  match http req with
  | .ok data => { requests := [req], log := [], result := .ok data }
  | .error e => { requests := [req], log := [e], result := .error e }

/-- JavaScript `x || d` for a non-negative integer `x`: `0` is falsy and
falls back to the default, every other number is truthy. -/
def jsOrNat (x d : Nat) : Nat := if x = 0 then d else x

/-- `data?.items || []` from `App.tsx` (a JS array is always truthy, so
a present response contributes its `items` even when empty). -/
def displayedItems (data : Option ApiResponse) : List Compound :=
  match data with
  | none => []
  | some r => r.items

/-- `data?.page || 1` from `App.tsx`: `undefined` (no response yet) and
a `page` field of `0` are both falsy and display as `1`. -/
def displayedPage (data : Option ApiResponse) : Nat :=
  match data with
  | none => 1
  | some r => jsOrNat r.page 1

/-- `data?.total_pages || 0` from `App.tsx`. -/
def displayedTotalPages (data : Option ApiResponse) : Nat :=
  match data with
  | none => 0
  | some r => jsOrNat r.total_pages 0

/-- `data?.total_items || 0` from `App.tsx`. -/
def displayedTotalItems (data : Option ApiResponse) : Nat :=
  match data with
  | none => 0
  | some r => jsOrNat r.total_items 0

/-- JavaScript `Array.prototype.findIndex`: index of the first element
satisfying `p`, and `-1` when none does. -/
def findIndex {α : Type} (p : α → Bool) : List α → Int
  | [] => -1
  | x :: xs =>
    if p x then 0
    else
      let r := findIndex p xs
      if r < 0 then -1 else r + 1

/-- Modelled from the spec: the state of the view-state coordinator
(the hook `hooks/useCompounds`, absent from the repository snapshot),
spec section 4.2, plus a `trace` of the fetch requests it has issued so
that "triggers a fetch" is observable. -/
structure CoordState where
  data : Option ApiResponse
  loading : Bool
  selectedCompound : Option Compound
  allFilteredCompounds : List Compound
  currentFilters : Obj
  currentPageNumber : Nat
  trace : List Request
deriving DecidableEq

/-- Modelled from the spec: the coordinator's initial state — no
response yet, nothing loading, list view, page 1. -/
def initState : CoordState :=
  { data := none
    loading := false
    selectedCompound := none
    allFilteredCompounds := []
    currentFilters := []
    currentPageNumber := 1
    trace := [] }

/-- Modelled from the spec: the request a coordinator fetch issues —
the fetch client applied to the current filters extended with the
current page number ("a fetch with existing filters + new page"). -/
def coordRequest (filters : Obj) (page : Nat) : Request :=
  mkFetchRequest (spread filters [("page", Value.num (page : Int))])

/-- Modelled from the spec: starting a fetch sets `loading` and issues
one request built from the coordinator's current filters and page. -/
def startFetch (s : CoordState) : CoordState :=
  { s with
    loading := true
    trace := s.trace ++ [coordRequest s.currentFilters s.currentPageNumber] }

/-- Modelled from the spec: `applyFilters(filters)` "replaces current
filters, resets to page 1, triggers a fetch" (hook `useCompounds`,
absent from the snapshot; spec section 4.2). -/
def applyFilters (s : CoordState) (filters : Obj) : CoordState :=
  startFetch { s with currentFilters := filters, currentPageNumber := 1 }

/-- Modelled from the spec: `changePage(n)` "sets page number, triggers
a fetch with existing filters + new page" (hook `useCompounds`, absent
from the snapshot; spec section 4.2). -/
def changePage (s : CoordState) (n : Nat) : CoordState :=
  startFetch { s with currentPageNumber := n }

/-- Modelled from the spec: the settling of the in-flight fetch.  On
success the response supersedes `data` entirely and becomes the current
fetched set; on failure `data` is unchanged.  Either way `loading`
terminates (spec sections 4.2 and 7). -/
def settleFetch (s : CoordState) (r : Except HttpError ApiResponse) : CoordState :=
  match r with
  | .ok resp =>
    { s with loading := false, data := some resp, allFilteredCompounds := resp.items }
  | .error _ => { s with loading := false }

/-- Modelled from the spec: `viewDetail(compound)` "sets
`selectedCompound`; does not refetch" (hook `useCompounds`, absent from
the snapshot; spec section 4.2). -/
def viewDetail (s : CoordState) (c : Compound) : CoordState :=
  { s with selectedCompound := some c }

/-- Modelled from the spec: `back()` "clears `selectedCompound`,
returning to list view" (hook `useCompounds`, absent from the
snapshot; spec section 4.2). -/
def goBack (s : CoordState) : CoordState :=
  { s with selectedCompound := none }

/-- Modelled from the spec: `nextCompound()` "moves `selectedCompound`
to the adjacent entry in `allFilteredCompounds` by matching the current
compound's `mol_idx`, index + 1; clamped at the ends (no wraparound)"
(hook `useCompounds`, absent from the snapshot; spec section 4.2). -/
def nextCompound (s : CoordState) : CoordState :=
  match s.selectedCompound with
  | none => s
  | some c =>
    let i := findIndex (fun item => item.mol_idx == c.mol_idx) s.allFilteredCompounds
    if 0 ≤ i ∧ i + 1 < (s.allFilteredCompounds.length : Int) then
      match s.allFilteredCompounds[(i + 1).toNat]? with
      | some c' => { s with selectedCompound := some c' }
      | none => s
    else s

/-- Modelled from the spec: `previousCompound()` "moves
`selectedCompound` to the adjacent entry in `allFilteredCompounds` by
matching the current compound's `mol_idx`, index - 1; clamped at the
ends (no wraparound)" (hook `useCompounds`, absent from the snapshot;
spec section 4.2). -/
def previousCompound (s : CoordState) : CoordState :=
  match s.selectedCompound with
  | none => s
  | some c =>
    let i := findIndex (fun item => item.mol_idx == c.mol_idx) s.allFilteredCompounds
    if 1 ≤ i then
      match s.allFilteredCompounds[(i - 1).toNat]? with
      | some c' => { s with selectedCompound := some c' }
      | none => s
    else s

/-- Modelled from the spec: the coordinator's observable events.  A
fetch is two events — its start (bundled into `applyFilters` and
`changePage`, the operations that trigger one) and its settling with
the network's verdict. -/
inductive Event where
  | applyFilters (f : Obj)
  | changePage (n : Nat)
  | settle (r : Except HttpError ApiResponse)
  | viewDetail (c : Compound)
  | back
  | next
  | prev

/-- Modelled from the spec: one transition of the coordinator. -/
def step (s : CoordState) : Event → CoordState
  | .applyFilters f => applyFilters s f
  | .changePage n => changePage s n
  | .settle r => settleFetch s r
  | .viewDetail c => viewDetail s c
  | .back => goBack s
  | .next => nextCompound s
  | .prev => previousCompound s

/-- The states of the application reachable from the initial state by
coordinator events (with arbitrary backend responses, the backend being
an opaque external collaborator). -/
inductive Reachable : CoordState → Prop where
  | init : Reachable initState
  | step {s : CoordState} (e : Event) : Reachable s → Reachable (step s e)

/-- What `App.tsx` renders: the detail page with the props it passes,
or the list view with the props handed to `ResultsTable`. -/
inductive RenderedView where
  | detail (compound : Compound) (currentIndex : Int) (totalCount : Nat)
  | home (items : List Compound) (loading : Bool) (currentPage : Nat)
      (totalPages : Nat) (totalItems : Nat)
deriving DecidableEq

/-- Embedding of the render logic of `src/frontend/src/App.tsx`: detail
mode exactly when a compound is selected, with `currentIndex` computed
by `findIndex` on `mol_idx`; otherwise the results table with the
`||`-defaulted props. -/
def appRender (s : CoordState) : RenderedView :=
  match s.selectedCompound with
  | some c =>
    .detail c (findIndex (fun item => item.mol_idx == c.mol_idx) s.allFilteredCompounds)
      s.allFilteredCompounds.length
  | none =>
    .home (displayedItems s.data) s.loading (displayedPage s.data)
      (displayedTotalPages s.data) (displayedTotalItems s.data)

/-- The page-display invariant as the spec words it: "the displayed
page number always matches the page embedded in the last successful
`ApiResponse`, or defaults to 1 before any response arrives". -/
def pageDisplayInvariant (s : CoordState) : Prop :=
  displayedPage s.data =
    match s.data with
    | none => 1
    | some r => r.page

/-- A syntactically valid backend response whose `page` field is `0`. -/
def respPageZero : ApiResponse :=
  { items := [], page := 0, total_pages := 0, total_items := 0 }

/-- The reachable state right after a successful fetch returned
`respPageZero`. -/
def statePageZero : CoordState :=
  step (step initState (Event.applyFilters [])) (Event.settle (Except.ok respPageZero))

/-- Sample compounds used to instantiate theorems with hypotheses. -/
def cA : Compound := { mol_idx := 1 }

def cB : Compound := { mol_idx := 2 }

def cC : Compound := { mol_idx := 3 }

/-- A network that always fails with HTTP status 500. -/
def badHttp : Request → Except HttpError ApiResponse :=
  fun _ => Except.error (HttpError.status 500)

/-- A successful response reporting a single page of results. -/
def respOnePage : ApiResponse :=
  { items := [], page := 1, total_pages := 1, total_items := 0 }

/-- The reachable state right after `respOnePage` arrived. -/
def stateOnePage : CoordState :=
  step (step initState (Event.applyFilters [])) (Event.settle (Except.ok respOnePage))

/-- A list state with compounds A, B, C and A selected. -/
def stateABC_A : CoordState :=
  { initState with allFilteredCompounds := [cA, cB, cC], selectedCompound := some cA }

/-- A list state with compounds A, B, C and B selected. -/
def stateABC_B : CoordState :=
  { initState with allFilteredCompounds := [cA, cB, cC], selectedCompound := some cB }

/-- A list state with compounds A, B, C and C selected. -/
def stateABC_C : CoordState :=
  { initState with allFilteredCompounds := [cA, cB, cC], selectedCompound := some cC }

theorem obj_get_spread (k : String) (a b : Obj) :
    Obj.get k (spread a b) =
      match Obj.get k b with
      | some v => some v
      | none => Obj.get k a := by
  induction a with
  | nil =>
    show Obj.get k b = _
    cases h : Obj.get k b <;> simp [Obj.get, h]
  | cons p rest ih =>
    obtain ⟨k', v⟩ := p
    show Obj.get k ((k', v) :: List.append rest b) = _
    rw [Obj.get]
    rw [show Obj.get k (List.append rest b) = Obj.get k (spread rest b) from rfl, ih]
    cases h : Obj.get k b
    · rfl
    · rfl

theorem findIndex_eq_neg_one (p : α → Bool) (l : List α)
    (h : ∀ x ∈ l, p x = false) : findIndex p l = -1 := by
  induction l with
  | nil => rfl
  | cons a t ih =>
    have ha := h a (List.mem_cons_self a t)
    have ht := ih (fun x hx => h x (List.mem_cons_of_mem a hx))
    simp [findIndex, ha, ht]

theorem findIndex_eq_of_first (p : α → Bool) (l : List α) (i : Nat) (x : α)
    (hx : l[i]? = some x) (hpx : p x = true)
    (hbefore : ∀ j y, j < i → l[j]? = some y → p y = false) :
    findIndex p l = i := by
  induction l generalizing i with
  | nil => simp at hx
  | cons a t ih =>
    cases i with
    | zero =>
      have : a = x := by simpa using hx
      subst this
      simp [findIndex, hpx]
    | succ i =>
      have ha : p a = false := hbefore 0 a (Nat.succ_pos i) (by simp)
      have ht : findIndex p t = i := by
        refine ih i (by simpa using hx) ?_
        intro j y hj hy
        exact hbefore (j + 1) y (Nat.succ_lt_succ hj) (by simpa using hy)
      simp only [findIndex, ha, Bool.false_eq_true, if_false, ht]
      norm_num

theorem findIndex_molIdx_nodup (l : List Compound)
    (hnd : (l.map Compound.mol_idx).Nodup) (i : Nat) (c : Compound)
    (hc : l[i]? = some c) :
    findIndex (fun item => item.mol_idx == c.mol_idx) l = i := by
  obtain ⟨hi, hci⟩ := List.getElem?_eq_some_iff.mp hc
  refine findIndex_eq_of_first _ l i c hc (by simp) ?_
  intro j y hj hy
  obtain ⟨hjl, hyj⟩ := List.getElem?_eq_some_iff.mp hy
  simp only [beq_eq_false_iff_ne, ne_eq]
  intro heq
  have hmap : (l.map Compound.mol_idx).get ⟨j, by simpa using hjl⟩ =
      (l.map Compound.mol_idx).get ⟨i, by simpa using hi⟩ := by
    simp only [List.get_eq_getElem, List.getElem_map]
    rw [hyj, hci]
    exact heq
  have hfin := hnd.get_inj_iff.mp hmap
  have : j = i := congrArg Fin.val hfin
  omega

theorem nextCompound_some (s : CoordState) (c : Compound)
    (hsel : s.selectedCompound = some c) :
    nextCompound s =
      (let i := findIndex (fun item => item.mol_idx == c.mol_idx) s.allFilteredCompounds
       if 0 ≤ i ∧ i + 1 < (s.allFilteredCompounds.length : Int) then
         match s.allFilteredCompounds[(i + 1).toNat]? with
         | some c' => { s with selectedCompound := some c' }
         | none => s
       else s) := by
  unfold nextCompound
  rw [hsel]

theorem previousCompound_some (s : CoordState) (c : Compound)
    (hsel : s.selectedCompound = some c) :
    previousCompound s =
      (let i := findIndex (fun item => item.mol_idx == c.mol_idx) s.allFilteredCompounds
       if 1 ≤ i then
         match s.allFilteredCompounds[(i - 1).toNat]? with
         | some c' => { s with selectedCompound := some c' }
         | none => s
       else s) := by
  unfold previousCompound
  rw [hsel]

theorem nextCompound_loading (s : CoordState) :
    (nextCompound s).loading = s.loading := by
  unfold nextCompound
  split
  · rfl
  · dsimp only
    split
    · split <;> rfl
    · rfl

theorem previousCompound_loading (s : CoordState) :
    (previousCompound s).loading = s.loading := by
  unfold previousCompound
  split
  · rfl
  · dsimp only
    split
    · split <;> rfl
    · rfl

/-- C1: for every filter-parameter object `f` (the empty object used
when the caller omits the argument included), `fetchCompounds` issues
exactly one GET request, to the fixed base URL plus "/items", whose
query parameters are `{page: 1, per_page: 50}` overridden by `f` with
object-spread semantics: on lookup a key present in `f` wins over the
defaults, so a caller-supplied `page` or `per_page` replaces the
corresponding default. -/
theorem fetchCompounds_issues_one_get
    (http : Request → Except HttpError ApiResponse) (f : Obj) :
    (fetchCompounds http f).requests =
      [{ method := "GET", url := API_BASE_URL ++ "/items",
         params := spread defaultParams f }] ∧
    (∀ k, Obj.get k (spread defaultParams f) =
      match Obj.get k f with
      | some v => some v
      | none => Obj.get k defaultParams) := by
  constructor
  · cases h : http (mkFetchRequest f) <;>
      · simp only [fetchCompounds, h]
        rfl
  · intro k
    exact obj_get_spread k defaultParams f

/-- C6: when the underlying GET fails (transport error or non-2xx
response), `fetchCompounds` logs the error and re-raises the very same
error value unchanged, having issued exactly one request (no retry) and
returning no result; it cannot return normally on a failed response. -/
theorem fetchCompounds_propagates_error
    (http : Request → Except HttpError ApiResponse) (f : Obj) (e : HttpError)
    (h : http (mkFetchRequest f) = Except.error e) :
    (fetchCompounds http f).result = Except.error e ∧
    (fetchCompounds http f).log = [e] ∧
    (fetchCompounds http f).requests = [mkFetchRequest f] ∧
    ∀ d : ApiResponse, (fetchCompounds http f).result ≠ Except.ok d := by
  refine ⟨?_, ?_, ?_, ?_⟩ <;> simp [fetchCompounds, h]

/-- Witness for C6: a network that always answers HTTP 500. -/
theorem fetchCompounds_propagates_error_witness :
    (fetchCompounds badHttp []).result = Except.error (HttpError.status 500) ∧
    (fetchCompounds badHttp []).log = [HttpError.status 500] := by
  have h := fetchCompounds_propagates_error badHttp [] (HttpError.status 500) rfl
  exact ⟨h.1, h.2.1⟩

/-- C2: a coordinator fetch that fails — whether started by applying
filters or by changing page — settles with `data` exactly as it was
before the fetch began and `loading` false. -/
theorem failed_fetch_preserves_data (s : CoordState) (f : Obj) (n : Nat)
    (e : HttpError) :
    ((step (step s (Event.applyFilters f)) (Event.settle (Except.error e))).data
        = s.data ∧
     (step (step s (Event.applyFilters f)) (Event.settle (Except.error e))).loading
        = false) ∧
    ((step (step s (Event.changePage n)) (Event.settle (Except.error e))).data
        = s.data ∧
     (step (step s (Event.changePage n)) (Event.settle (Except.error e))).loading
        = false) :=
  ⟨⟨rfl, rfl⟩, ⟨rfl, rfl⟩⟩

/-- C7: `applyFilters(filters)` replaces the filter selection wholesale,
resets the page number to 1, issues exactly one fetch carrying the new
filters (at page 1), and holds `loading` true from the start of the
fetch through every non-settling event; the settle — success or
failure — sets `loading` false. -/
theorem applyFilters_spec (s : CoordState) (f : Obj) :
    (step s (Event.applyFilters f)).currentFilters = f ∧
    (step s (Event.applyFilters f)).currentPageNumber = 1 ∧
    (step s (Event.applyFilters f)).trace = s.trace ++ [coordRequest f 1] ∧
    (step s (Event.applyFilters f)).loading = true ∧
    (∀ e : Event, (∀ r, e ≠ Event.settle r) →
      (step (step s (Event.applyFilters f)) e).loading = true) ∧
    (∀ r, (step (step s (Event.applyFilters f)) (Event.settle r)).loading
        = false) := by
  refine ⟨rfl, rfl, rfl, rfl, ?_, ?_⟩
  · intro e he
    cases e with
    | applyFilters g => rfl
    | changePage n => rfl
    | settle r => exact absurd rfl (he r)
    | viewDetail c => rfl
    | back => rfl
    | next =>
      show (nextCompound _).loading = true
      rw [nextCompound_loading]
      rfl
    | prev =>
      show (previousCompound _).loading = true
      rw [previousCompound_loading]
      rfl
  · intro r
    cases r <;> rfl

/-- Witness for C7: after applying empty filters from the initial
state, viewing a detail keeps `loading` true and a failed settle ends
it. -/
theorem applyFilters_spec_witness :
    (step (step initState (Event.applyFilters [])) (Event.viewDetail cA)).loading
      = true ∧
    (step (step initState (Event.applyFilters []))
      (Event.settle (Except.error (HttpError.status 500)))).loading = false := by
  have h := applyFilters_spec initState []
  exact ⟨h.2.2.2.2.1 (Event.viewDetail cA) (fun r hr => Event.noConfusion hr),
    h.2.2.2.2.2 _⟩

/-- C3: with the selected compound sitting at the last index of
`allFilteredCompounds` (identifiers `mol_idx` being unique),
`nextCompound()` leaves the coordinator state unchanged — it does not
throw (it is total) and does not wrap to the first element;
symmetrically, with the selected compound at index 0,
`previousCompound()` leaves the state unchanged. -/
theorem nav_noop_at_ends (s : CoordState) (c : Compound)
    (hsel : s.selectedCompound = some c)
    (hnd : (s.allFilteredCompounds.map Compound.mol_idx).Nodup) :
    (s.allFilteredCompounds.getLast? = some c → nextCompound s = s) ∧
    (s.allFilteredCompounds.head? = some c → previousCompound s = s) := by
  constructor
  · intro hlast
    have hc : s.allFilteredCompounds[s.allFilteredCompounds.length - 1]? = some c := by
      rw [← List.getLast?_eq_getElem?]; exact hlast
    have hf := findIndex_molIdx_nodup _ hnd _ c hc
    obtain ⟨hlt, -⟩ := List.getElem?_eq_some_iff.mp hc
    rw [nextCompound_some s c hsel]
    dsimp only
    rw [hf]
    rw [if_neg (by rintro ⟨-, h2⟩; omega)]
  · intro hhead
    have hc : s.allFilteredCompounds[0]? = some c := by
      rw [← List.head?_eq_getElem?]; exact hhead
    have hf := findIndex_molIdx_nodup _ hnd _ c hc
    rw [previousCompound_some s c hsel]
    dsimp only
    rw [hf]
    rw [if_neg (by omega)]

/-- Witness for C3: over compounds A, B, C, `nextCompound` from C (the
last entry) and `previousCompound` from A (the first entry) are
no-ops. -/
theorem nav_noop_at_ends_witness :
    nextCompound stateABC_C = stateABC_C ∧
    previousCompound stateABC_A = stateABC_A :=
  ⟨(nav_noop_at_ends stateABC_C cC (by decide) (by decide)).1 (by decide),
   (nav_noop_at_ends stateABC_A cA (by decide) (by decide)).2 (by decide)⟩

/-- C4: with the selected compound located (by `mol_idx`) at a
non-boundary index `i` of `allFilteredCompounds` (identifiers unique),
`nextCompound()` selects the element at index `i + 1` and
`previousCompound()` the element at index `i - 1`. -/
theorem nav_adjacent (s : CoordState) (c : Compound) (i : Nat)
    (hsel : s.selectedCompound = some c)
    (hnd : (s.allFilteredCompounds.map Compound.mol_idx).Nodup)
    (hc : s.allFilteredCompounds[i]? = some c) :
    (i + 1 < s.allFilteredCompounds.length →
      nextCompound s =
        { s with selectedCompound := s.allFilteredCompounds[i + 1]? }) ∧
    (0 < i →
      previousCompound s =
        { s with selectedCompound := s.allFilteredCompounds[i - 1]? }) := by
  have hf := findIndex_molIdx_nodup _ hnd _ c hc
  constructor
  · intro hi1
    rw [nextCompound_some s c hsel]
    dsimp only
    rw [hf]
    have hcond : 0 ≤ (i : Int) ∧
        (i : Int) + 1 < (s.allFilteredCompounds.length : Int) := ⟨by omega, by omega⟩
    rw [if_pos hcond]
    have ht : ((i : Int) + 1).toNat = i + 1 := by omega
    rw [ht]
    rw [List.getElem?_eq_getElem hi1]
  · intro hi0
    rw [previousCompound_some s c hsel]
    dsimp only
    rw [hf]
    rw [if_pos (by omega : (1 : Int) ≤ (i : Int))]
    have ht : ((i : Int) - 1).toNat = i - 1 := by omega
    rw [ht]
    have hlt : i - 1 < s.allFilteredCompounds.length := by
      obtain ⟨h, -⟩ := List.getElem?_eq_some_iff.mp hc
      omega
    rw [List.getElem?_eq_getElem hlt]

/-- Witness for C4: over compounds A(1), B(2), C(3), `nextCompound`
from B selects C, and `previousCompound` from C selects B. -/
theorem nav_adjacent_witness :
    nextCompound stateABC_B = { stateABC_B with selectedCompound := some cC } ∧
    previousCompound stateABC_C = { stateABC_C with selectedCompound := some cB } := by
  have h1 := (nav_adjacent stateABC_B cB 1 (by decide) (by decide) (by decide)).1
    (by decide)
  have h2 := (nav_adjacent stateABC_C cC 2 (by decide) (by decide) (by decide)).2
    (by decide)
  exact ⟨h1.trans (by decide), h2.trans (by decide)⟩

/-- C5 fails as stated: the state reached by applying empty filters and
then receiving a successful response whose `page` field is `0` is
reachable, yet the list view displays page `1` — the `|| 1` default in
`App.tsx` treats the embedded `0` as falsy — so the displayed page does
not match the page embedded in the last successful response. -/
theorem pageDisplay_counterexample :
    Reachable statePageZero ∧
    statePageZero.data = some respPageZero ∧
    respPageZero.page = 0 ∧
    displayedPage statePageZero.data = 1 ∧
    ¬ pageDisplayInvariant statePageZero := by
  refine ⟨?_, rfl, rfl, rfl, ?_⟩
  · show Reachable (step (step initState (Event.applyFilters []))
      (Event.settle (Except.ok respPageZero)))
    exact Reachable.step _ (Reachable.step _ Reachable.init)
  · unfold pageDisplayInvariant
    decide

/-- C5 amended: in every reachable state the displayed page number
equals the `page` field of the most recent successful response whenever
that field is nonzero, and equals 1 before any response arrives; when
the embedded `page` field is `0` the display falls back to 1 (the JS
`||` default treats 0 as falsy). -/
theorem pageDisplay_matches (s : CoordState) (_reach : Reachable s) :
    (s.data = none → displayedPage s.data = 1) ∧
    (∀ r, s.data = some r → 0 < r.page → displayedPage s.data = r.page) ∧
    (∀ r, s.data = some r → r.page = 0 → displayedPage s.data = 1) := by
  refine ⟨?_, ?_, ?_⟩
  · intro hd
    rw [hd]
    rfl
  · intro r hd hp
    rw [hd]
    simp only [displayedPage, jsOrNat]
    rw [if_neg (by omega)]
  · intro r hd hp
    rw [hd]
    simp only [displayedPage, jsOrNat]
    rw [if_pos hp]

/-- Witness for the amended C5 at the reachable page-0 state. -/
theorem pageDisplay_matches_witness :
    displayedPage statePageZero.data = 1 := by
  have hr : Reachable statePageZero :=
    Reachable.step (Event.settle (Except.ok respPageZero))
      (Reachable.step (Event.applyFilters []) Reachable.init)
  exact (pageDisplay_matches statePageZero hr).2.2 respPageZero rfl rfl

/-- C8 fails on the coordinator as the spec describes it: after a
successful response with `total_pages = 1`, `changePage 2` neither
rejects nor clamps — it sets the page number to 2 and issues a fetch
whose `page` query parameter is 2, exceeding `total_pages`. -/
theorem changePage_counterexample :
    stateOnePage.data = some respOnePage ∧
    respOnePage.total_pages = 1 ∧
    (step stateOnePage (Event.changePage 2)).currentPageNumber = 2 ∧
    (step stateOnePage (Event.changePage 2)).trace =
      stateOnePage.trace ++ [coordRequest stateOnePage.currentFilters 2] ∧
    Obj.get "page" (coordRequest stateOnePage.currentFilters 2).params =
      some (Value.num 2) := by
  exact ⟨rfl, rfl, rfl, rfl, by decide⟩

/-- C8 amended: `changePage(n)` always sets the page number to `n` and
triggers exactly one fetch whose `page` query parameter is `n`; no
rejection and no clamping happens, so `changePage(T+1)` after a
response with `total_pages = T` does request a page beyond range. -/
theorem changePage_no_clamp (s : CoordState) (n : Nat) :
    (step s (Event.changePage n)).currentPageNumber = n ∧
    (step s (Event.changePage n)).trace =
      s.trace ++ [coordRequest s.currentFilters n] ∧
    Obj.get "page" (coordRequest s.currentFilters n).params =
      some (Value.num (n : Int)) := by
  refine ⟨rfl, rfl, ?_⟩
  simp [coordRequest, mkFetchRequest, obj_get_spread, Obj.get]

/-- C9: `App` renders the detail page exactly when a compound is
selected; the `currentIndex` passed to it is `findIndex` over
`mol_idx`, which is the index of the first matching element of
`allFilteredCompounds` and `-1` (not an error) when no element
matches. -/
theorem appRender_detail_index (s : CoordState) :
    (s.selectedCompound = none →
      appRender s = RenderedView.home (displayedItems s.data) s.loading
        (displayedPage s.data) (displayedTotalPages s.data)
        (displayedTotalItems s.data)) ∧
    (∀ c, s.selectedCompound = some c →
      appRender s = RenderedView.detail c
        (findIndex (fun item => item.mol_idx == c.mol_idx)
          s.allFilteredCompounds)
        s.allFilteredCompounds.length ∧
      ((∀ x ∈ s.allFilteredCompounds, x.mol_idx ≠ c.mol_idx) →
        findIndex (fun item => item.mol_idx == c.mol_idx)
          s.allFilteredCompounds = -1) ∧
      (∀ (i : Nat) (x : Compound), s.allFilteredCompounds[i]? = some x →
        x.mol_idx = c.mol_idx →
        (∀ (j : Nat) (y : Compound), j < i →
          s.allFilteredCompounds[j]? = some y → y.mol_idx ≠ c.mol_idx) →
        findIndex (fun item => item.mol_idx == c.mol_idx)
          s.allFilteredCompounds = (i : Int))) := by
  constructor
  · intro h
    unfold appRender
    rw [h]
  · intro c h
    refine ⟨?_, ?_, ?_⟩
    · unfold appRender
      rw [h]
    · intro hnone
      exact findIndex_eq_neg_one _ _ (fun x hx => by simp [hnone x hx])
    · intro i x hix hxc hbefore
      refine findIndex_eq_of_first _ _ i x hix (by simp [hxc]) ?_
      intro j y hj hjy
      simp [hbefore j y hj hjy]

/-- Witness for C9: with A, B, C listed and B selected, `App` renders
the detail page with `currentIndex` 1 and `totalCount` 3. -/
theorem appRender_detail_index_witness :
    appRender stateABC_B = RenderedView.detail cB 1 3 := by
  have h := (appRender_detail_index stateABC_B).2 cB (by decide)
  have hidx : findIndex (fun item => item.mol_idx == cB.mol_idx)
      stateABC_B.allFilteredCompounds = 1 := by
    refine h.2.2 1 cB (by decide) rfl ?_
    intro j y hj hjy
    have hj0 : j = 0 := by omega
    subst hj0
    have hy : ([cA, cB, cC] : List Compound)[0]? = some y := hjy
    have hya : cA = y := by simpa using hy
    subst hya
    decide
  rw [hidx] at h
  exact h.1

/-- C10: before any successful fetch (`data` still null) and in list
mode, `App` renders the results table with an empty items list, current
page 1, total pages 0 and total items 0, via the `||`-defaults rather
than failing on the missing response. -/
theorem initial_render_defaults (s : CoordState) (hd : s.data = none)
    (hs : s.selectedCompound = none) :
    appRender s = RenderedView.home [] s.loading 1 0 0 := by
  unfold appRender
  rw [hs, hd]
  rfl

/-- Witness for C10 at the initial state. -/
theorem initial_render_defaults_witness :
    appRender initState = RenderedView.home [] initState.loading 1 0 0 :=
  initial_render_defaults initState rfl rfl
